import Mathlib

/-!
Verification development for the analytics-dashboard repository.

The file shallowly embeds, in Lean, the parts of the code base that the
checked properties speak about:

* the Cloudflare Worker ingestion endpoint (the `fetch` handler in
  src/app/layout.tsx): method check, visitor-id cookie handling,
  UUID-v4 generation, the visitor and pageview store inserts, the
  response statuses and headers;
* the dashboard aggregation pipeline (`fetchDashboardData` in
  src/app/page.tsx) and the legacy `fetchCounts` (src/unnamed/part_000);
* the display-state updates the dashboard performs when a run of
  `fetchDashboardData` completes.

Store behaviour (whether an insert succeeds, returns an error object, or
throws) is a parameter; the SQL bodies of the server-side RPC functions
are not in the repository and are modelled from the spec where needed
(each such definition says so in its doc comment).
-/

namespace Analytics

/-- A JSON object body, modelled as a flat association list of field names
to rendered values.  The worker never parses the request body, so the
values can stay opaque strings. -/
abbrev JsonObj := List (String × String)

/-- An inbound HTTP request as the worker sees it: the method, the raw
Cookie header (absent or present), and the JSON body fields. -/
structure IngestRequest where
  method : String
  cookieHeader : Option String
  body : JsonObj
  deriving DecidableEq

/-- Outcome of one Supabase REST insert as the worker observes it:
the returned JSON had no error field (`ok`), the returned JSON carried an
error object — a duplicate-key conflict surfaces this way (`errResponse`),
or the fetch / JSON parse threw (`netError`). -/
inductive InsertOutcome where
  | ok : InsertOutcome
  | errResponse : InsertOutcome
  | netError : InsertOutcome
  deriving DecidableEq

/-- The durable store state: ids of inserted unique_visitors rows and the
field lists of inserted pageviews rows (exactly what the worker POSTed). -/
structure Store where
  visitors : List String
  pageviews : List JsonObj
  deriving DecidableEq

/-- An HTTP response: status, body text and headers. -/
structure WorkerResponse where
  status : Nat
  bodyText : String
  headers : List (String × String)
  deriving DecidableEq

/-- Result of one worker invocation: the response sent back and the store
state after the inserts that succeeded. -/
structure WorkerResult where
  response : WorkerResponse
  store : Store
  deriving DecidableEq

/-- Headers.set: replaces an existing header of the same name, otherwise
appends. -/
def headerSet (hs : List (String × String)) (k v : String) : List (String × String) :=
  if hs.any (fun h => h.1 == k) then
    hs.map (fun h => if h.1 == k then (k, v) else h)
  else
    hs ++ [(k, v)]

/-- Headers.get: the value of the first header with the given name. -/
def headerGet (hs : List (String × String)) (k : String) : Option String :=
  (hs.find? (fun h => h.1 == k)).map (fun h => h.2)

/-- The cookie-name prefix the worker searches for. -/
def visitorCookieKey : String := "visitor_id="

/-- JS `cookies.split('; ')` over the character list: splits at each
left-to-right non-overlapping occurrence of the two-character separator
"; ". -/
def splitSemiSpace : List Char → List (List Char)
  | [] => [[]]
  | [c] => [[c]]
  | c1 :: c2 :: rest =>
    if c1 == ';' && c2 == ' ' then [] :: splitSemiSpace rest
    else
      match splitSemiSpace (c2 :: rest) with
      | [] => [[c1]]
      | h :: t => (c1 :: h) :: t

/-- JS `row.split(sep)` for a one-character separator. -/
def splitChar (sep : Char) : List Char → List (List Char)
  | [] => [[]]
  | c :: rest =>
    if c == sep then [] :: splitChar sep rest
    else
      match splitChar sep rest with
      | [] => [[c]]
      | h :: t => (c :: h) :: t

/-- Cookie extraction as the worker does it (src/app/layout.tsx 446-453):
split the Cookie header on "; ", find the first row starting with
"visitor_id=", take the text between the first and second "=" of that
row.  The worker then treats an empty value as absent (JS falsiness of
the empty string), so the parse yields `none` for a missing cookie or an
empty value and `some v` for any non-empty value, well-formed or not. -/
def parseVisitorId (cookieHeader : Option String) : Option String :=
  match cookieHeader with
  | none => none
  | some c =>
    match (splitSemiSpace c.toList).find?
        (fun row => visitorCookieKey.toList.isPrefixOf row) with
    | none => none
    | some row =>
      let v := (splitChar '=' row).getD 1 []
      if v == [] then none else some (String.mk v)

/-- Lower-case hexadecimal digit, as JS `v.toString(16)` renders 0..15. -/
def hexDigit (n : Nat) : Char :=
  if n < 10 then Char.ofNat (48 + n) else Char.ofNat (87 + n)

/-- The template string of generateUuidV4 (src/app/layout.tsx 396-402). -/
def uuidTemplate : List Char :=
  ("xxxxxxxx-xxxx-4xxx-yxxx-xxxxxxxxxxxx").toList

/-- One pass of `'xxxxxxxx-xxxx-4xxx-yxxx-xxxxxxxxxxxx'.replace(/[xy]/g, ...)`:
each matched char consumes one random nibble in order; an 'x' becomes the
nibble itself, a 'y' becomes `r & 0x3 | 0x8`; other chars are kept. -/
def uuidReplace (rand : Nat → Fin 16) : List Char → Nat → List Char
  | [], _ => []
  | c :: rest, i =>
    if c == 'x' then hexDigit (rand i).val :: uuidReplace rand rest (i + 1)
    else if c == 'y' then hexDigit (((rand i).val &&& 3) ||| 8) :: uuidReplace rand rest (i + 1)
    else c :: uuidReplace rand rest i

/-- generateUuidV4 from src/app/layout.tsx, with the stream of
`Math.random() * 16 | 0` draws made explicit as `rand`. -/
def generateUuidV4 (rand : Nat → Fin 16) : String :=
  String.mk (uuidReplace rand uuidTemplate 0)

/-- The Set-Cookie value the worker builds for a freshly minted visitor id
(src/app/layout.tsx 456): `Max-Age=${365 * 24 * 60 * 60}` renders as
31536000. -/
def setCookieValue (visitorId : String) : String :=
  "visitor_id=" ++ visitorId ++ "; Max-Age=" ++ toString (365 * 24 * 60 * 60) ++
    "; Path=/; HttpOnly; SameSite=Lax"

def hSetCookie : String := "Set-Cookie"

def hAllowOrigin : String := "Access-Control-Allow-Origin"

def hAllowMethods : String := "Access-Control-Allow-Methods"

def hAllowHeaders : String := "Access-Control-Allow-Headers"

/-- The three CORS headers the worker sets on its final response
(src/app/layout.tsx 497-500). -/
def corsSet (hs : List (String × String)) : List (String × String) :=
  headerSet (headerSet (headerSet hs hAllowOrigin ("*")) hAllowMethods ("POST, OPTIONS"))
    hAllowHeaders ("Content-Type")

/-- The worker's `fetch` handler (src/app/layout.tsx 409-508).

* Any method other than POST is rejected up front with a bare 405
  (so the OPTIONS branch at the end is unreachable).
* If no visitor_id cookie value is found, a fresh UUID is generated, the
  Set-Cookie header is put on the (mutable) default 200 response, and a
  unique_visitors insert with body `{ id }` is attempted; its outcome only
  gets logged.
* A pageviews insert with body `{}` is always attempted; on an error
  object or a thrown exception the response is REPLACED by a fresh 500
  response (losing any Set-Cookie header).
* The CORS headers are set on whatever response is current, which is then
  returned (the trailing OPTIONS check cannot fire inside the POST
  branch). -/
def workerFetch (req : IngestRequest) (rand : Nat → Fin 16)
    (visitorInsert pageviewInsert : InsertOutcome) (store : Store) : WorkerResult :=
  if req.method ≠ "POST" then
    { response := { status := 405, bodyText := "Method Not Allowed", headers := [] }
      store := store }
  else
    let resp0 : WorkerResponse := { status := 200, bodyText := "Pageview recorded", headers := [] }
    let step1 : WorkerResponse × Store :=
      match parseVisitorId req.cookieHeader with
      | some _ => (resp0, store)
      | none =>
        let vid := generateUuidV4 rand
        let resp1 := { resp0 with headers := headerSet resp0.headers hSetCookie (setCookieValue vid) }
        let store1 :=
          match visitorInsert with
          | InsertOutcome.ok => { store with visitors := store.visitors ++ [vid] }
          | _ => store
        (resp1, store1)
    let step2 : WorkerResponse × Store :=
      match pageviewInsert with
      | InsertOutcome.ok =>
        (step1.1, { step1.2 with pageviews := step1.2.pageviews ++ [([] : JsonObj)] })
      | _ =>
        ({ status := 500, bodyText := "Error recording pageview", headers := [] }, step1.2)
    let finalResp : WorkerResponse := { step2.1 with headers := corsSet step2.1.headers }
    if req.method == "OPTIONS" then
      { response := { status := 204, bodyText := "", headers := finalResp.headers }
        store := step2.2 }
    else
      { response := finalResp, store := step2.2 }

/-! ## Aggregation side: store rows and the dashboard queries -/

/-- A pageviews row as the read side sees it.  Timestamps are epoch
seconds; nullable columns are Options. -/
structure PageviewEvent where
  site_id : String
  created_at : Nat
  path : String
  referrer : Option String
  user_agent : Option String
  country : Option String
  latitude : Option Int
  longitude : Option Int
  deriving DecidableEq

/-- A unique_visitors row (the realtime subscriptions filter this table by
site_id, so the read-side row carries one). -/
structure VisitorRow where
  id : String
  site_id : String
  created_at : Nat
  deriving DecidableEq

/-- A snapshot of the relational store. -/
structure Db where
  pageviews : List PageviewEvent
  visitors : List VisitorRow
  deriving DecidableEq

/-- Membership of a timestamp in an inclusive interval, unbounded on an
omitted side (gte / lte in the queries). -/
def inRangeB (ts : Nat) (s e : Option Nat) : Bool :=
  (match s with
   | none => true
   | some a => decide (a ≤ ts)) &&
  (match e with
   | none => true
   | some b => decide (ts ≤ b))

/-- The pageviews rows of one site. -/
def siteRows (db : Db) (siteId : String) : List PageviewEvent :=
  db.pageviews.filter (fun p => p.site_id == siteId)

/-- The unique_visitors rows of one site. -/
def siteVisitors (db : Db) (siteId : String) : List VisitorRow :=
  db.visitors.filter (fun v => v.site_id == siteId)

/-- Modelled from the spec: the SQL body of the Postgres function
count_pageviews_and_visitors_by_site is not in the repository.  Its caller
(src/app/page.tsx 316-319) passes only `p_site_id` — the function has no
date parameters — so per the spec it returns the count of PageviewEvent
rows and of Visitor rows for the site. -/
def count_pageviews_and_visitors_by_site (db : Db) (siteId : String) : Nat × Nat :=
  ((siteRows db siteId).length, (siteVisitors db siteId).length)

/-- The fixed-window count queries the dashboard issues directly
(src/app/page.tsx 331-362): count of pageviews rows where site_id equals
the selected site and created_at ≥ the window anchor.  The conjunctive
WHERE clause is rendered as a filter of the site's rows. -/
def visitsSince (db : Db) (siteId : String) (since : Nat) : Nat :=
  ((siteRows db siteId).filter (fun p => since ≤ p.created_at)).length

/-- Distinct values of a list in first-seen order. -/
def firstSeen {α : Type} [BEq α] : List α → List α
  | [] => []
  | x :: xs => x :: (firstSeen xs).filter (fun y => !(y == x))

/-- Insert into a count-descending list, after all entries with an equal
or larger count (stable for first-seen tie order). -/
def insertByCountDesc {α : Type} (x : α × Nat) : List (α × Nat) → List (α × Nat)
  | [] => [x]
  | y :: ys => if y.2 < x.2 then x :: y :: ys else y :: insertByCountDesc x ys

/-- Stable insertion sort, descending by count. -/
def sortByCountDesc {α : Type} : List (α × Nat) → List (α × Nat)
  | [] => []
  | x :: xs => insertByCountDesc x (sortByCountDesc xs)

/-- Modelled from the spec: a top-N breakdown groups by the raw attribute
value, counts occurrences, sorts descending by count with ties in
first-seen order, and truncates to the top 10. -/
def topCounts {α : Type} [BEq α] (l : List α) : List (α × Nat) :=
  (sortByCountDesc ((firstSeen l).map
    (fun v => (v, (l.filter (fun w => w == v)).length)))).take 10

/-- The site's rows restricted to the requested date range. -/
def rangedRows (db : Db) (siteId : String) (s e : Option Nat) : List PageviewEvent :=
  (siteRows db siteId).filter (fun p => inRangeB p.created_at s e)

/-- Modelled from the spec: the SQL body of get_top_pages is not in the
repository; per the spec it is the top-10 path breakdown of the site's
rows in range. -/
def get_top_pages (db : Db) (siteId : String) (s e : Option Nat) : List (String × Nat) :=
  topCounts ((rangedRows db siteId s e).map (fun p => p.path))

/-- Modelled from the spec: the SQL body of get_top_referrers is not in
the repository; per the spec it is the top-10 raw-referrer breakdown of
the site's rows in range. -/
def get_top_referrers (db : Db) (siteId : String) (s e : Option Nat) :
    List (Option String × Nat) :=
  topCounts ((rangedRows db siteId s e).map (fun p => p.referrer))

/-- Modelled from the spec: the SQL body of get_top_user_agents is not in
the repository; per the spec it is the top-10 raw-user-agent breakdown of
the site's rows in range. -/
def get_top_user_agents (db : Db) (siteId : String) (s e : Option Nat) :
    List (Option String × Nat) :=
  topCounts ((rangedRows db siteId s e).map (fun p => p.user_agent))

/-- Insert into an ascending list. -/
def insertAsc (x : Nat) : List Nat → List Nat
  | [] => [x]
  | y :: ys => if x ≤ y then x :: y :: ys else y :: insertAsc x ys

/-- Insertion sort, ascending. -/
def sortAsc : List Nat → List Nat
  | [] => []
  | x :: xs => insertAsc x (sortAsc xs)

/-- Modelled from the spec: the SQL body of get_daily_pageviews_for_chart
is not in the repository; per the spec it buckets the site's in-range rows
by UTC calendar day (epoch day = created_at / 86400), emitting one
(day, count) row per day that has at least one event, ascending, with
empty days omitted. -/
def get_daily_pageviews_for_chart (db : Db) (siteId : String) (s e : Option Nat) :
    List (Nat × Nat) :=
  let rows := rangedRows db siteId s e
  (sortAsc (firstSeen (rows.map (fun p => p.created_at / 86400)))).map
    (fun d => (d, (rows.filter (fun p => p.created_at / 86400 == d)).length))

/-- The most recent (largest created_at) non-null coordinate pair among a
country's rows; (none, none) when no row carries coordinates. -/
def latestCoords (rows : List PageviewEvent) : Option Int × Option Int :=
  let coordRows := rows.filter (fun p => p.latitude.isSome && p.longitude.isSome)
  match coordRows.foldl
      (fun acc p =>
        match acc with
        | none => some p
        | some q => if q.created_at ≤ p.created_at then some p else some q)
      none with
  | none => (none, none)
  | some p => (p.latitude, p.longitude)

/-- A per-country breakdown row: country code, summed pageviews, latest
coordinates. -/
abbrev CountryRow := String × Nat × (Option Int × Option Int)

/-- Modelled from the spec: the SQL body of get_country_pageviews is not
in the repository; per the spec it groups the site's in-range rows by
country code, sums pageviews, and reports the most recent non-null
coordinate pair per country. -/
def get_country_pageviews (db : Db) (siteId : String) (s e : Option Nat) : List CountryRow :=
  let rows := (rangedRows db siteId s e).filter (fun p => p.country.isSome)
  (firstSeen (rows.map (fun p => p.country.getD ""))).map
    (fun c =>
      let cRows := rows.filter (fun p => p.country.getD "" == c)
      (c, cRows.length, latestCoords cRows))

/-! ## The dashboard display state and how a completed run updates it -/

/-- The dashboard's displayed aggregate values (the useState cells of
src/app/page.tsx); number-or-null cells are Options. -/
structure DashState where
  totalVisits : Option Nat
  uniqueVisitors : Option Nat
  visitsToday : Option Nat
  visits24Hours : Option Nat
  visits7Days : Option Nat
  visits30Days : Option Nat
  topPages : List (String × Nat)
  dailyPageviews : List (Nat × Nat)
  topReferrers : List (Option String × Nat)
  topUserAgents : List (Option String × Nat)
  countryPageviews : List CountryRow
  dashboardError : Option String
  deriving DecidableEq

/-- The per-query results of one fetchDashboardData run as the client
receives them; `none` means the query returned an error object (for the
country query, the error the code then throws). -/
structure RunOutcome where
  counts : Option (Nat × Nat)
  today : Option Nat
  last24 : Option Nat
  last7 : Option Nat
  last30 : Option Nat
  topPages : Option (List (String × Nat))
  daily : Option (List (Nat × Nat))
  topReferrers : Option (List (Option String × Nat))
  topUserAgents : Option (List (Option String × Nat))
  country : Option (List CountryRow)
  deriving DecidableEq

/-- One completed fetchDashboardData run applied to the display state, in
source order (src/app/page.tsx 290-432): clear the error state, apply the
counts result (an error object sets BOTH totals to zero and is only
logged), set or null the four fixed windows depending on whether an
explicit range is active, set each top-N/daily list (an error leaves data
null, so the list is set to []), and finally either set the country rows
or — when the country query errored, which the code throws and catches —
set the error message, leaving countryPageviews untouched. -/
def runFetch (st : DashState) (s e : Option Nat) (o : RunOutcome) : DashState :=
  let st0 := { st with dashboardError := none }
  let st1 :=
    match o.counts with
    | none => { st0 with totalVisits := some 0, uniqueVisitors := some 0 }
    | some tu => { st0 with totalVisits := some tu.1, uniqueVisitors := some tu.2 }
  let st2 :=
    if s.isNone && e.isNone then
      { st1 with
        visitsToday := some (o.today.getD 0)
        visits24Hours := some (o.last24.getD 0)
        visits7Days := some (o.last7.getD 0)
        visits30Days := some (o.last30.getD 0) }
    else
      { st1 with
        visitsToday := none, visits24Hours := none, visits7Days := none, visits30Days := none }
  let st3 := { st2 with topPages := o.topPages.getD [] }
  let st4 := { st3 with dailyPageviews := o.daily.getD [] }
  let st5 := { st4 with topReferrers := o.topReferrers.getD [] }
  let st6 := { st5 with topUserAgents := o.topUserAgents.getD [] }
  match o.country with
  | none => { st6 with dashboardError := some ("An unexpected error occurred while loading data") }
  | some l => { st6 with countryPageviews := l }

/-- The window anchors the client computes from the wall clock (start of
today, 24 hours / 7 days / 30 days ago), passed in as data. -/
structure WindowAnchors where
  startOfToday : Nat
  ago24h : Nat
  ago7d : Nat
  ago30d : Nat
  deriving DecidableEq

/-- The query results of one fetchDashboardData run in which every store
call succeeds, computed from a store snapshot. -/
def outcomeOfDb (db : Db) (siteId : String) (s e : Option Nat) (w : WindowAnchors) : RunOutcome :=
  { counts := some (count_pageviews_and_visitors_by_site db siteId)
    today := some (visitsSince db siteId w.startOfToday)
    last24 := some (visitsSince db siteId w.ago24h)
    last7 := some (visitsSince db siteId w.ago7d)
    last30 := some (visitsSince db siteId w.ago30d)
    topPages := some (get_top_pages db siteId s e)
    daily := some (get_daily_pageviews_for_chart db siteId s e)
    topReferrers := some (get_top_referrers db siteId s e)
    topUserAgents := some (get_top_user_agents db siteId s e)
    country := some (get_country_pageviews db siteId s e) }

/-- A completed aggregation run: the date range it was issued with plus
its query results. -/
abbrev CompletedRun := (Option Nat × Option Nat) × RunOutcome

/-- Display state after a sequence of run completions is applied in
completion order: each completing run performs its setState sequence
unconditionally — fetchDashboardData carries no generation token or any
other check against newer in-flight runs. -/
def applyInOrder (st : DashState) (runs : List CompletedRun) : DashState :=
  runs.foldl (fun acc r => runFetch acc r.1.1 r.1.2 r.2) st

/-! ## The legacy fetchCounts totals (src/unnamed/part_000, lines 122-157) -/

/-- The legacy fetchCounts total-visits query: count of ALL pageviews rows
in the date range — there is no site filter in the query chain. -/
def fetchCountsTotalVisits (db : Db) (s e : Option Nat) : Nat :=
  (db.pageviews.filter (fun p => inRangeB p.created_at s e)).length

/-- The legacy fetchCounts unique-visitors query: count of ALL
unique_visitors rows in the date range — again without a site filter. -/
def fetchCountsUniqueVisitors (db : Db) (s e : Option Nat) : Nat :=
  (db.visitors.filter (fun v => inRangeB v.created_at s e)).length

/-- The total-visits value exactly as claim C6 words it — PageviewEvent
rows for the site restricted to the inclusive [startDate, endDate]
interval.  Written from the spec wording, for comparison with what the
code computes. -/
def claimedTotalVisits (db : Db) (siteId : String) (s e : Option Nat) : Nat :=
  (db.pageviews.filter (fun p => p.site_id == siteId && inRangeB p.created_at s e)).length

/-! ## UUID-v4 structure -/

/-- UUID-v4 structural shape as the claims use it: 36 characters, dashes
at positions 8/13/18/23, version nibble '4' at position 14, variant
character at position 19 one of 8/9/a/b.  The variant clause is written
last so that on a generated identifier the whole check reduces to it. -/
def uuidStructOK (s : String) : Bool :=
  s.toList.length == 36 &&
  s.toList.getD 8 ' ' == '-' &&
  s.toList.getD 13 ' ' == '-' &&
  s.toList.getD 18 ' ' == '-' &&
  s.toList.getD 23 ' ' == '-' &&
  s.toList.getD 14 ' ' == '4' &&
  (("89ab").toList).contains (s.toList.getD 19 ' ')

/-- Every nibble masked with 3 and or-ed with 8 renders as one of the four
variant characters. -/
theorem hexDigit_variant :
    ∀ r : Fin 16, (("89ab").toList).contains (hexDigit ((r.val &&& 3) ||| 8)) = true := by
  decide

/-- The worker's generated identifier always has the UUID-v4 structural
shape, whatever the random draws are: the template fixes the dashes and
the version nibble, and the 'y' slot is forced into the variant range. -/
theorem generateUuidV4_structOK (rand : Nat → Fin 16) :
    uuidStructOK (generateUuidV4 rand) = true := by
  have h : uuidStructOK (generateUuidV4 rand)
      = (("89ab").toList).contains (hexDigit (((rand 15).val &&& 3) ||| 8)) := rfl
  rw [h]
  exact hexDigit_variant (rand 15)

/-! ## Concrete fixtures -/

/-- A fixed draw stream (all zero nibbles) for concrete evaluations. -/
def uuidZeroRand : Nat → Fin 16 := fun _ => 0

/-- The empty store. -/
def store0 : Store := { visitors := [], pageviews := [] }

/-- A POST carrying a returning-visitor cookie and a fully populated
body. -/
def reqC1 : IngestRequest :=
  { method := "POST"
    cookieHeader := some ("visitor_id=abc-123")
    body := [("site_id", "s1"), ("path", "/about")] }

/-- A pre-flight request. -/
def reqOptions : IngestRequest :=
  { method := "OPTIONS", cookieHeader := none, body := [] }

/-- A POST whose visitor_id cookie value is present but not
UUID-shaped. -/
def reqMalformedCookie : IngestRequest :=
  { method := "POST", cookieHeader := some ("visitor_id=zzz"), body := [] }

/-- A first-time POST: no Cookie header at all. -/
def reqNoCookie : IngestRequest :=
  { method := "POST", cookieHeader := none, body := [] }

/-! ## Claim theorems: ingestion side -/

/-- C1: the Event Recorder does not persist the request-body fields.  For
an accepted POST whose body carries site_id and path, the single
pageviews row the worker inserts is the empty object: the worker never
parses the request body and posts `JSON.stringify({})`
(src/app/layout.tsx 480-484), so no field of the request reaches the
row — refuting field-for-field persistence while the response still
reports success. -/
theorem c1_pageview_row_drops_request_fields :
    (workerFetch reqC1 uuidZeroRand InsertOutcome.ok InsertOutcome.ok store0).response.status
        = 200 ∧
    (workerFetch reqC1 uuidZeroRand InsertOutcome.ok InsertOutcome.ok store0).store.pageviews
        = [([] : JsonObj)] ∧
    reqC1.body ≠ ([] : JsonObj) := by
  decide

/-- C3: a pre-flight OPTIONS request is rejected with a bare 405 Method
Not Allowed carrying no CORS headers and a non-empty body — the OPTIONS
branch at src/app/layout.tsx 502-505 sits below the early
`request.method !== 'POST'` return and is unreachable, contradicting the
spec and the code's own comment. -/
theorem c3_options_gets_405_without_cors :
    (workerFetch reqOptions uuidZeroRand InsertOutcome.ok InsertOutcome.ok store0).response.status
        = 405 ∧
    headerGet (workerFetch reqOptions uuidZeroRand InsertOutcome.ok InsertOutcome.ok
        store0).response.headers hAllowOrigin = none ∧
    (workerFetch reqOptions uuidZeroRand InsertOutcome.ok InsertOutcome.ok
        store0).response.bodyText ≠ "" := by
  decide

/-- C2 counterexample: a malformed (non-UUID-shaped) visitor_id cookie
value is accepted as-is: no fresh identifier is minted, no Set-Cookie
directive is issued and no visitor row is inserted, refuting the claim's
malformed-cookie case. -/
theorem c2_malformed_cookie_accepted :
    uuidStructOK ("zzz") = false ∧
    headerGet (workerFetch reqMalformedCookie uuidZeroRand InsertOutcome.ok InsertOutcome.ok
        store0).response.headers hSetCookie = none ∧
    (workerFetch reqMalformedCookie uuidZeroRand InsertOutcome.ok InsertOutcome.ok
        store0).store.visitors = [] := by
  decide

/-- C2 (amended): a fresh identifier is minted only when the Cookie header
yields no visitor_id value (header absent or value empty) — any non-empty
value, well-formed or not, is reused.  The minted identifier meets the
UUID-v4 structural requirements, and, provided the pageview insert
succeeds (a failed insert replaces the response and drops the header, see
C10), the response carries Set-Cookie: visitor_id=<uuid>;
Max-Age=31536000; Path=/; HttpOnly; SameSite=Lax. -/
theorem c2_fresh_uuid_and_cookie_on_absent_visitor_id
    (req : IngestRequest) (rand : Nat → Fin 16) (vIns : InsertOutcome) (store : Store)
    (hm : req.method = "POST")
    (hc : parseVisitorId req.cookieHeader = none) :
    uuidStructOK (generateUuidV4 rand) = true ∧
    headerGet (workerFetch req rand vIns InsertOutcome.ok store).response.headers hSetCookie
        = some (setCookieValue (generateUuidV4 rand)) ∧
    setCookieValue ("abc")
        = "visitor_id=abc; Max-Age=31536000; Path=/; HttpOnly; SameSite=Lax" := by
  refine ⟨generateUuidV4_structOK rand, ?_, by decide⟩
  cases vIns <;>
    simp [workerFetch, hm, hc, headerGet, headerSet, corsSet, hSetCookie, hAllowOrigin,
      hAllowMethods, hAllowHeaders]

/-- Witness for the amended C2 theorem at a concrete first-time request. -/
theorem c2_fresh_uuid_and_cookie_witness :
    reqNoCookie.method = "POST" ∧ parseVisitorId reqNoCookie.cookieHeader = none ∧
    (uuidStructOK (generateUuidV4 uuidZeroRand) = true ∧
     headerGet (workerFetch reqNoCookie uuidZeroRand InsertOutcome.ok InsertOutcome.ok
         store0).response.headers hSetCookie
         = some (setCookieValue (generateUuidV4 uuidZeroRand)) ∧
     setCookieValue ("abc")
         = "visitor_id=abc; Max-Age=31536000; Path=/; HttpOnly; SameSite=Lax") :=
  ⟨rfl, rfl,
    c2_fresh_uuid_and_cookie_on_absent_visitor_id reqNoCookie uuidZeroRand InsertOutcome.ok
      store0 rfl rfl⟩

/-- C4: for a POST, the response status is 200 exactly when the pageview
insert succeeded and 500 exactly when it failed (error object or thrown
exception); the row is appended exactly in the success case; and the
response — success or error — carries the three permissive CORS
headers. -/
theorem c4_status_tracks_pageview_insert
    (req : IngestRequest) (rand : Nat → Fin 16) (vIns pIns : InsertOutcome) (store : Store)
    (hm : req.method = "POST") :
    ((workerFetch req rand vIns pIns store).response.status = 200 ↔ pIns = InsertOutcome.ok) ∧
    ((workerFetch req rand vIns pIns store).response.status = 500 ↔ pIns ≠ InsertOutcome.ok) ∧
    (pIns = InsertOutcome.ok →
      (workerFetch req rand vIns pIns store).store.pageviews
        = store.pageviews ++ [([] : JsonObj)]) ∧
    (pIns ≠ InsertOutcome.ok →
      (workerFetch req rand vIns pIns store).store.pageviews = store.pageviews) ∧
    headerGet (workerFetch req rand vIns pIns store).response.headers hAllowOrigin
        = some ("*") ∧
    headerGet (workerFetch req rand vIns pIns store).response.headers hAllowMethods
        = some ("POST, OPTIONS") ∧
    headerGet (workerFetch req rand vIns pIns store).response.headers hAllowHeaders
        = some ("Content-Type") := by
  cases pIns <;> cases hpv : parseVisitorId req.cookieHeader <;> cases vIns <;>
    simp [workerFetch, hm, hpv, headerGet, headerSet, corsSet, hSetCookie, hAllowOrigin,
      hAllowMethods, hAllowHeaders]

/-- Witness for the C4 theorem at a concrete request and failing insert. -/
theorem c4_status_tracks_pageview_insert_witness :
    reqC1.method = "POST" ∧
    (((workerFetch reqC1 uuidZeroRand InsertOutcome.ok InsertOutcome.errResponse
          store0).response.status = 200 ↔ InsertOutcome.errResponse = InsertOutcome.ok) ∧
     ((workerFetch reqC1 uuidZeroRand InsertOutcome.ok InsertOutcome.errResponse
          store0).response.status = 500 ↔ InsertOutcome.errResponse ≠ InsertOutcome.ok) ∧
     (InsertOutcome.errResponse = InsertOutcome.ok →
       (workerFetch reqC1 uuidZeroRand InsertOutcome.ok InsertOutcome.errResponse
           store0).store.pageviews = store0.pageviews ++ [([] : JsonObj)]) ∧
     (InsertOutcome.errResponse ≠ InsertOutcome.ok →
       (workerFetch reqC1 uuidZeroRand InsertOutcome.ok InsertOutcome.errResponse
           store0).store.pageviews = store0.pageviews) ∧
     headerGet (workerFetch reqC1 uuidZeroRand InsertOutcome.ok InsertOutcome.errResponse
         store0).response.headers hAllowOrigin = some ("*") ∧
     headerGet (workerFetch reqC1 uuidZeroRand InsertOutcome.ok InsertOutcome.errResponse
         store0).response.headers hAllowMethods = some ("POST, OPTIONS") ∧
     headerGet (workerFetch reqC1 uuidZeroRand InsertOutcome.ok InsertOutcome.errResponse
         store0).response.headers hAllowHeaders = some ("Content-Type")) :=
  ⟨rfl, c4_status_tracks_pageview_insert reqC1 uuidZeroRand InsertOutcome.ok
    InsertOutcome.errResponse store0 rfl⟩

/-- C5: the visitor insert is independent of the pageview insert.  Its
outcome — success, error object (the duplicate-key conflict surfaces this
way) or thrown exception — changes neither the response nor the pageview
side effect, so a conflict is silently tolerated; and a failed pageview
insert does not undo a successful visitor insert. -/
theorem c5_visitor_insert_independent
    (req : IngestRequest) (rand : Nat → Fin 16) (v1 v2 pIns : InsertOutcome) (store : Store)
    (hm : req.method = "POST") :
    ((workerFetch req rand v1 pIns store).response
        = (workerFetch req rand v2 pIns store).response) ∧
    ((workerFetch req rand v1 pIns store).store.pageviews
        = (workerFetch req rand v2 pIns store).store.pageviews) ∧
    (parseVisitorId req.cookieHeader = none → pIns ≠ InsertOutcome.ok →
      (workerFetch req rand InsertOutcome.ok pIns store).store.visitors
        = store.visitors ++ [generateUuidV4 rand]) := by
  refine ⟨?_, ?_, ?_⟩ <;>
    cases hpv : parseVisitorId req.cookieHeader <;> cases pIns <;> cases v1 <;> cases v2 <;>
      simp [workerFetch, hm, hpv]

/-- Witness for the C5 theorem: conflicting visitor insert versus a
successful one, with a failing pageview insert. -/
theorem c5_visitor_insert_independent_witness :
    reqNoCookie.method = "POST" ∧
    (((workerFetch reqNoCookie uuidZeroRand InsertOutcome.errResponse InsertOutcome.errResponse
          store0).response
        = (workerFetch reqNoCookie uuidZeroRand InsertOutcome.ok InsertOutcome.errResponse
            store0).response) ∧
     ((workerFetch reqNoCookie uuidZeroRand InsertOutcome.errResponse InsertOutcome.errResponse
          store0).store.pageviews
        = (workerFetch reqNoCookie uuidZeroRand InsertOutcome.ok InsertOutcome.errResponse
            store0).store.pageviews) ∧
     (parseVisitorId reqNoCookie.cookieHeader = none →
       InsertOutcome.errResponse ≠ InsertOutcome.ok →
       (workerFetch reqNoCookie uuidZeroRand InsertOutcome.ok InsertOutcome.errResponse
           store0).store.visitors
         = store0.visitors ++ [generateUuidV4 uuidZeroRand])) :=
  ⟨rfl, c5_visitor_insert_independent reqNoCookie uuidZeroRand InsertOutcome.errResponse
    InsertOutcome.ok InsertOutcome.errResponse store0 rfl⟩

/-- C10: on a first-time request (no usable visitor_id cookie value) whose
pageview insert fails, the replacement 500 response carries no Set-Cookie
header even though a successful visitor insert already persisted the
fresh identifier; a later cookie-less request runs the minting path again
and issues a Set-Cookie for a fresh identifier of its own draw stream. -/
theorem c10_pageview_failure_drops_fresh_cookie
    (req req2 : IngestRequest) (rand rand2 : Nat → Fin 16) (vIns pFail : InsertOutcome)
    (store store2 : Store)
    (hm : req.method = "POST") (hc : parseVisitorId req.cookieHeader = none)
    (hp : pFail ≠ InsertOutcome.ok)
    (hm2 : req2.method = "POST") (hc2 : parseVisitorId req2.cookieHeader = none) :
    (workerFetch req rand vIns pFail store).response.status = 500 ∧
    headerGet (workerFetch req rand vIns pFail store).response.headers hSetCookie = none ∧
    (vIns = InsertOutcome.ok →
      (workerFetch req rand vIns pFail store).store.visitors
        = store.visitors ++ [generateUuidV4 rand]) ∧
    headerGet (workerFetch req2 rand2 vIns InsertOutcome.ok store2).response.headers hSetCookie
        = some (setCookieValue (generateUuidV4 rand2)) := by
  cases pFail <;> cases vIns <;>
    simp_all [workerFetch, headerGet, headerSet, corsSet, hSetCookie, hAllowOrigin,
      hAllowMethods, hAllowHeaders]

/-- Witness for the C10 theorem at concrete first-time requests. -/
theorem c10_pageview_failure_drops_fresh_cookie_witness :
    reqNoCookie.method = "POST" ∧ parseVisitorId reqNoCookie.cookieHeader = none ∧
    InsertOutcome.netError ≠ InsertOutcome.ok ∧
    ((workerFetch reqNoCookie uuidZeroRand InsertOutcome.ok InsertOutcome.netError
         store0).response.status = 500 ∧
     headerGet (workerFetch reqNoCookie uuidZeroRand InsertOutcome.ok InsertOutcome.netError
         store0).response.headers hSetCookie = none ∧
     (InsertOutcome.ok = InsertOutcome.ok →
       (workerFetch reqNoCookie uuidZeroRand InsertOutcome.ok InsertOutcome.netError
           store0).store.visitors = store0.visitors ++ [generateUuidV4 uuidZeroRand]) ∧
     headerGet (workerFetch reqNoCookie uuidZeroRand InsertOutcome.ok InsertOutcome.ok
         store0).response.headers hSetCookie
         = some (setCookieValue (generateUuidV4 uuidZeroRand))) :=
  ⟨rfl, rfl, by decide,
    c10_pageview_failure_drops_fresh_cookie reqNoCookie reqNoCookie uuidZeroRand uuidZeroRand
      InsertOutcome.ok InsertOutcome.netError store0 store0 rfl rfl (by decide) rfl rfl⟩

/-! ## Claim theorems: aggregation and display side -/

/-- A pageviews row with only site and timestamp populated. -/
def pv (siteId : String) (ts : Nat) : PageviewEvent :=
  { site_id := siteId, created_at := ts, path := "/", referrer := none, user_agent := none
    country := none, latitude := none, longitude := none }

/-- The dashboard's initial display state (all cells null / empty). -/
def dashInit : DashState :=
  { totalVisits := none, uniqueVisitors := none, visitsToday := none, visits24Hours := none
    visits7Days := none, visits30Days := none, topPages := [], dailyPageviews := []
    topReferrers := [], topUserAgents := [], countryPageviews := [], dashboardError := none }

/-- Degenerate window anchors for concrete evaluations. -/
def wAnchors0 : WindowAnchors :=
  { startOfToday := 0, ago24h := 0, ago7d := 0, ago30d := 0 }

/-- Two pageviews for site s1, one inside and one outside the sample
range. -/
def dbC6 : Db :=
  { pageviews := [pv ("s1") 10, pv ("s1") 1000], visitors := [] }

/-- C6 (amended): the totals the dashboard reports are the site-scoped
counts over ALL time.  The counts RPC is invoked with only the site id
(src/app/page.tsx 316-319) — it has no date parameters — so whatever
date range is supplied, total visits and unique visitors are the
unrestricted per-site row counts. -/
theorem c6_totals_site_scoped_but_range_blind
    (db : Db) (siteId : String) (s e : Option Nat) (w : WindowAnchors) (st : DashState) :
    (runFetch st s e (outcomeOfDb db siteId s e w)).totalVisits
        = some ((siteRows db siteId).length) ∧
    (runFetch st s e (outcomeOfDb db siteId s e w)).uniqueVisitors
        = some ((siteVisitors db siteId).length) := by
  cases hif : (s.isNone && e.isNone) <;>
    simp [runFetch, outcomeOfDb, count_pageviews_and_visitors_by_site, hif]

/-- C6 counterexample: with two pageviews for site s1 at times 10 and
1000 and the explicit range [0, 100], the dashboard reports total visits
2 while the claim's range-restricted count is 1. -/
theorem c6_range_ignored_counterexample :
    (runFetch dashInit (some 0) (some 100)
        (outcomeOfDb dbC6 ("s1") (some 0) (some 100) wAnchors0)).totalVisits = some 2 ∧
    claimedTotalVisits dbC6 ("s1") (some 0) (some 100) = 1 := by
  decide

/-- A display state already showing non-zero totals and no error. -/
def dashShowing : DashState :=
  { totalVisits := some 5, uniqueVisitors := some 7, visitsToday := some 1
    visits24Hours := some 1, visits7Days := some 2, visits30Days := some 3
    topPages := [("/", 5)], dailyPageviews := [], topReferrers := [], topUserAgents := []
    countryPageviews := [], dashboardError := none }

/-- A run in which the counts query returned an error object and every
other query succeeded. -/
def outcomeCountsFail : RunOutcome :=
  { counts := none, today := some 0, last24 := some 0, last7 := some 0, last30 := some 0
    topPages := some [], daily := some [], topReferrers := some [], topUserAgents := some []
    country := some [] }

/-- C7 counterexample: with total visits 5 on display, a failed counts
query leaves the dashboard showing 0 — the prior value is replaced, not
preserved — and the error state stays empty: nothing is reported to the
viewer. -/
theorem c7_counts_error_counterexample :
    dashShowing.totalVisits = some 5 ∧
    (runFetch dashShowing none none outcomeCountsFail).totalVisits = some 0 ∧
    (runFetch dashShowing none none outcomeCountsFail).dashboardError = none := by
  decide

/-- C7 (amended): a failed counts query neither preserves prior values
nor reports an error: the handler overwrites both displayed totals with
zero and only logs to the console, and the run clears the error state it
set out with; `dashboardError` is set only when the country query fails,
whose error alone is thrown.  Prior top-N lists are likewise replaced
(with []) on their queries' failures, not preserved. -/
theorem c7_counts_error_zeroes_and_stays_silent
    (st : DashState) (s e : Option Nat) (o : RunOutcome) (l : List CountryRow)
    (hc : o.counts = none) (hk : o.country = some l) :
    (runFetch st s e o).totalVisits = some 0 ∧
    (runFetch st s e o).uniqueVisitors = some 0 ∧
    (runFetch st s e o).dashboardError = none ∧
    (o.topPages = none → (runFetch st s e o).topPages = []) := by
  cases hif : (s.isNone && e.isNone) <;> cases htp : o.topPages <;>
    simp [runFetch, hc, hk, hif, htp]

/-- Witness for the amended C7 theorem at the concrete failing run. -/
theorem c7_counts_error_witness :
    outcomeCountsFail.counts = none ∧
    outcomeCountsFail.country = some [] ∧
    ((runFetch dashShowing none none outcomeCountsFail).totalVisits = some 0 ∧
     (runFetch dashShowing none none outcomeCountsFail).uniqueVisitors = some 0 ∧
     (runFetch dashShowing none none outcomeCountsFail).dashboardError = none ∧
     (outcomeCountsFail.topPages = none →
       (runFetch dashShowing none none outcomeCountsFail).topPages = [])) :=
  ⟨rfl, rfl,
    c7_counts_error_zeroes_and_stays_silent dashShowing none none outcomeCountsFail [] rfl rfl⟩

/-- Snapshot with only a site-s1 row. -/
def dbA : Db := { pageviews := [pv ("s1") 10], visitors := [] }

/-- The same snapshot plus a row of another site. -/
def dbB : Db := { pageviews := [pv ("s1") 10, pv ("s2") 20], visitors := [] }

/-- C8 counterexample: dbA and dbB agree on every site-s1 pageview and
visitor row, yet the legacy fetchCounts total-visits query
(src/unnamed/part_000 122-132), which carries no site filter, reports 1
against dbA and 2 against dbB: counts leak across sites. -/
theorem c8_fetchCounts_leaks_across_sites :
    siteRows dbA ("s1") = siteRows dbB ("s1") ∧
    siteVisitors dbA ("s1") = siteVisitors dbB ("s1") ∧
    fetchCountsTotalVisits dbA none none = 1 ∧
    fetchCountsTotalVisits dbB none none = 2 := by
  decide

/-- C8 (amended): noninterference holds for the current dashboard
pipeline: two store snapshots that agree on site S's pageviews and
unique_visitors rows yield the identical full run outcome for S — every
query fetchDashboardData issues is filtered by the site identifier.  (The
legacy fetchCounts totals are not site-filtered and do leak; see the
counterexample.) -/
theorem c8_dashboard_noninterference
    (db1 db2 : Db) (siteId : String) (s e : Option Nat) (w : WindowAnchors)
    (hp : siteRows db1 siteId = siteRows db2 siteId)
    (hv : siteVisitors db1 siteId = siteVisitors db2 siteId) :
    outcomeOfDb db1 siteId s e w = outcomeOfDb db2 siteId s e w := by
  simp [outcomeOfDb, count_pageviews_and_visitors_by_site, visitsSince, get_top_pages,
    get_top_referrers, get_top_user_agents, get_daily_pageviews_for_chart,
    get_country_pageviews, rangedRows, hp, hv]

/-- Witness for the C8 noninterference theorem at dbA versus dbB. -/
theorem c8_dashboard_noninterference_witness :
    siteRows dbA ("s1") = siteRows dbB ("s1") ∧
    siteVisitors dbA ("s1") = siteVisitors dbB ("s1") ∧
    outcomeOfDb dbA ("s1") none none wAnchors0 = outcomeOfDb dbB ("s1") none none wAnchors0 :=
  ⟨by decide, by decide,
    c8_dashboard_noninterference dbA dbB ("s1") none none wAnchors0 (by decide) (by decide)⟩

/-- A completed run with a successful country query fully determines the
resulting display state: every cell is overwritten, so the state the run
started from is irrelevant. -/
theorem runFetch_overwrites (st st' : DashState) (s e : Option Nat) (o : RunOutcome)
    (l : List CountryRow) (hk : o.country = some l) :
    runFetch st s e o = runFetch st' s e o := by
  cases hc : o.counts <;> cases hif : (s.isNone && e.isNone) <;>
    simp [runFetch, hk, hc, hif]

/-- The first of the two runs of the C9 scenario (Q1, full range). -/
def outcomeQ1 : RunOutcome :=
  { counts := some (100, 50), today := some 9, last24 := some 9, last7 := some 9
    last30 := some 9, topPages := some [], daily := some [], topReferrers := some []
    topUserAgents := some [], country := some [] }

/-- The second run of the C9 scenario (Q2, last 7 days). -/
def outcomeQ2 : RunOutcome :=
  { counts := some (7, 3), today := some 0, last24 := some 0, last7 := some 0
    last30 := some 0, topPages := some [], daily := some [], topReferrers := some []
    topUserAgents := some [], country := some [] }

/-- C9 counterexample: Q1 (full range) is issued before Q2 (7-day range)
but completes after it.  Applying the completions in arrival order leaves
Q1's total (100) on display, not Q2's (7): the required
issuance-order/generation-token behaviour is refuted. -/
theorem c9_stale_overwrite_counterexample :
    (applyInOrder dashInit
        [((some 100, none), outcomeQ2), ((none, none), outcomeQ1)]).totalVisits = some 100 ∧
    (runFetch dashInit (some 100) none outcomeQ2).totalVisits = some 7 := by
  decide

/-- C9 (amended): results are applied in COMPLETION order with no
generation token: after any sequence of completed runs, the display
equals the state the last-completed run alone produces (given its
country query succeeded — the only cell an errored run leaves
untouched), so a superseded run completing late overwrites newer
results. -/
theorem c9_last_completion_wins
    (st : DashState) (runs : List CompletedRun) (se : Option Nat × Option Nat)
    (o : RunOutcome) (l : List CountryRow) (hk : o.country = some l) :
    applyInOrder st (runs ++ [(se, o)]) = runFetch st se.1 se.2 o := by
  unfold applyInOrder
  rw [List.foldl_append]
  exact runFetch_overwrites _ st se.1 se.2 o l hk

/-- Witness for the amended C9 theorem on the concrete two-run
scenario. -/
theorem c9_last_completion_wins_witness :
    outcomeQ1.country = some [] ∧
    applyInOrder dashInit [((some 100, none), outcomeQ2), ((none, none), outcomeQ1)]
        = runFetch dashInit none none outcomeQ1 :=
  ⟨rfl,
    c9_last_completion_wins dashInit [((some 100, none), outcomeQ2)] (none, none)
      outcomeQ1 [] rfl⟩

end Analytics
